import Mathlib

/-!
# Verification of the search-engine-service core

A shallow embedding of the Go repository `knsrky/search-engine-service`.
Pure functions of the source are translated into Lean functions; the
database and the wall clock are passed explicitly.  Go `float64`
arithmetic is modelled over `ℚ` (every concrete computation settled here
is exact in binary floating point at the inputs used, so the models
agree); Go `int` is modelled as `ℤ`; Go `time.Time` as a rational number
of hours since the epoch.
-/

namespace SearchEngine

/-- Go conversion `int(x)` of a float truncates toward zero.
Models the cast used in `roundTo2Decimals` and `DaysSincePublished`
(`internal/domain/scoring.go`, `internal/domain/content.go`). -/
def ratTrunc (q : ℚ) : ℤ :=
  if q < 0 then ⌈q⌉ else ⌊q⌋

/-- `domain.Content` (`internal/domain/content.go`).  Metric fields are Go
`int` (so they admit negative values); `Score` is `float64`; timestamps
are rational hours since the epoch. -/
structure Content where
  id : String
  providerId : String
  externalId : String
  title : String
  type : String
  tags : List String
  views : ℤ
  likes : ℤ
  duration : String
  readingTime : ℤ
  reactions : ℤ
  comments : ℤ
  score : ℚ
  publishedAt : ℚ
  createdAt : ℚ
  updatedAt : ℚ
  deriving DecidableEq, Repr

/-- `Content.DaysSincePublished` (`internal/domain/content.go:82`):
`days := time.Since(c.PublishedAt).Hours() / 24; if days < 0 { return 0 };
return int(days)`.  `now` is the wall clock in hours. -/
def daysSincePublished (c : Content) (now : ℚ) : ℤ :=
  let days : ℚ := (now - c.publishedAt) / 24
  if days < 0 then 0 else ratTrunc days

/-- `domain.ContentTypeCoefficient` (`internal/domain/scoring.go:6`). -/
def contentTypeCoefficient (contentType : String) : ℚ :=
  if contentType = "video" then 3/2
  else if contentType = "article" then 1
  else 1

/-- `domain.calculateBaseScore` (`internal/domain/scoring.go:60`). -/
def calculateBaseScore (c : Content) : ℚ :=
  if c.type = "video" then (c.views : ℚ) / 1000 + (c.likes : ℚ) / 100
  else if c.type = "article" then (c.readingTime : ℚ) + (c.reactions : ℚ) / 50
  else 0

/-- `domain.calculateRecencyScore` (`internal/domain/scoring.go:77`). -/
def calculateRecencyScore (c : Content) (now : ℚ) : ℚ :=
  let days := daysSincePublished c now
  if days ≤ 7 then 5
  else if days ≤ 30 then 3
  else if days ≤ 90 then 1
  else 0

/-- `domain.calculateEngagementScore` (`internal/domain/scoring.go:96`). -/
def calculateEngagementScore (c : Content) : ℚ :=
  if c.type = "video" then
    if c.views = 0 then 0 else ((c.likes : ℚ) / (c.views : ℚ)) * 10
  else if c.type = "article" then
    if c.readingTime = 0 then 0 else ((c.reactions : ℚ) / (c.readingTime : ℚ)) * 5
  else 0

/-- `domain.roundTo2Decimals` (`internal/domain/scoring.go:114`):
`float64(int(value*100+0.5)) / 100`. -/
def roundTo2Decimals (value : ℚ) : ℚ :=
  (ratTrunc (value * 100 + 1/2) : ℚ) / 100

/-- `domain.CalculateScore` (`internal/domain/scoring.go:40`).  The Go
function takes a nullable `*Content` and returns `0` for `nil`. -/
def CalculateScore (c? : Option Content) (now : ℚ) : ℚ :=
  match c? with
  | none => 0
  | some c =>
      roundTo2Decimals
        (calculateBaseScore c * contentTypeCoefficient c.type
          + calculateRecencyScore c now
          + calculateEngagementScore c)

/-- `domain.SearchParams` (`internal/domain/search.go:21`).  `Type`,
`SortBy` and `SortOrder` are Go string types. -/
structure SearchParams where
  query : String
  type : String
  sortBy : String
  sortOrder : String
  page : ℤ
  pageSize : ℤ
  deriving DecidableEq, Repr

/-- `domain.DefaultSearchParams` (`internal/domain/search.go:38`). -/
def DefaultSearchParams : SearchParams :=
  { query := "", type := "", sortBy := "score", sortOrder := "desc"
    page := 1, pageSize := 5 }

/-- `SearchParams.Validate` (`internal/domain/search.go:48`), as a
function from the received params to the mutated params. -/
def SearchParams.validate (p : SearchParams) : SearchParams :=
  let p := if p.page < 1 then { p with page := 1 } else p
  let p := if p.pageSize < 1 then { p with pageSize := 20 } else p
  let p := if p.pageSize > 100 then { p with pageSize := 100 } else p
  let p := if p.sortBy = "" then { p with sortBy := "score" } else p
  if p.sortOrder = "" then { p with sortOrder := "desc" } else p

/-- `SearchParams.Offset` (`internal/domain/search.go:67`). -/
def SearchParams.offset (p : SearchParams) : ℤ :=
  (p.page - 1) * p.pageSize

/-- `domain.SearchResult` (`internal/domain/search.go:77`), with rows
kept as repository rows. -/
structure SearchResult where
  contents : List Content
  total : ℤ
  page : ℤ
  pageSize : ℤ
  totalPages : ℤ
  deriving DecidableEq, Repr

/-- `domain.NewSearchResult` (`internal/domain/search.go:86`):
`totalPages := int(total) / params.PageSize; if int(total) % params.PageSize > 0
{ totalPages++ }`.  Go integer division truncates toward zero
(`Int.tdiv`/`Int.tmod`). -/
def NewSearchResult (contents : List Content) (total : ℤ) (params : SearchParams) :
    SearchResult :=
  let totalPages := total.tdiv params.pageSize
  let totalPages := if total.tmod params.pageSize > 0 then totalPages + 1 else totalPages
  { contents := contents, total := total, page := params.page
    pageSize := params.pageSize, totalPages := totalPages }

/-! ## Repository (`internal/infra/postgres`, source file of `Repository`)

Rows of the `contents` table are modelled by `Content` (the GORM
`ContentModel` carries exactly the same fields).  The SQL engine is
abstracted: the FTS predicate `search_vector @@ websearch_to_tsquery`
is a parameter `ftsMatch`, and `ORDER BY` is a parameter `order`
(required, where a theorem needs it, to be length-preserving, as any
SQL ordering of a result set is). -/

/-- The filter built by `Repository.buildSearchQuery`: the FTS `WHERE`
predicate when `Query` is non-empty, and the exact `type` match when
`Type` is set. -/
def rowMatches (ftsMatch : String → Content → Bool) (p : SearchParams)
    (r : Content) : Bool :=
  (p.query = "" || ftsMatch p.query r) && (p.type = "" || r.type = p.type)

/-- `Repository.Search` (repository source): validates params, counts the
filtered rows, applies `ORDER BY`, `OFFSET (page-1)*page_size` and
`LIMIT page_size`, and builds the result with `NewSearchResult`. -/
def repoSearch (ftsMatch : String → Content → Bool)
    (order : List Content → List Content)
    (db : List Content) (params : SearchParams) : SearchResult :=
  let p := params.validate
  let filtered := db.filter (rowMatches ftsMatch p)
  let total : ℤ := filtered.length
  let rows := ((order filtered).drop p.offset.toNat).take p.pageSize.toNat
  NewSearchResult rows total p

/-- The `ON CONFLICT ... DO UPDATE` assignment column list shared by
`Repository.Upsert` and `Repository.BulkUpsert`
(`clause.AssignmentColumns`). -/
def assignmentColumns : List String :=
  ["title", "type", "tags",
   "views", "likes", "duration", "reading_time", "reactions", "comments",
   "score", "published_at", "updated_at"]

/-- Assignment of one named column of the `contents` table: the row `old`
with the column `col` taken from `new`.  Every column of the table is
handled; which ones an upsert assigns is decided solely by
`assignmentColumns`. -/
def assignColumn (old new : Content) (col : String) : Content :=
  if col = "id" then { old with id := new.id }
  else if col = "provider_id" then { old with providerId := new.providerId }
  else if col = "external_id" then { old with externalId := new.externalId }
  else if col = "title" then { old with title := new.title }
  else if col = "type" then { old with type := new.type }
  else if col = "tags" then { old with tags := new.tags }
  else if col = "views" then { old with views := new.views }
  else if col = "likes" then { old with likes := new.likes }
  else if col = "duration" then { old with duration := new.duration }
  else if col = "reading_time" then { old with readingTime := new.readingTime }
  else if col = "reactions" then { old with reactions := new.reactions }
  else if col = "comments" then { old with comments := new.comments }
  else if col = "score" then { old with score := new.score }
  else if col = "published_at" then { old with publishedAt := new.publishedAt }
  else if col = "created_at" then { old with createdAt := new.createdAt }
  else if col = "updated_at" then { old with updatedAt := new.updatedAt }
  else old

/-- The `DO UPDATE` clause applied to a conflicting row: assign exactly
the columns of `assignmentColumns`. -/
def applyConflictUpdate (old new : Content) : Content :=
  assignmentColumns.foldl (fun acc col => assignColumn acc new col) old

/-- The natural key `(provider_id, external_id)` of the unique
constraint `uq_provider_external`. -/
def rowKey (r : Content) : String × String :=
  (r.providerId, r.externalId)

/-- Effect of one `INSERT ... ON CONFLICT (provider_id, external_id)
DO UPDATE` statement on the table state. -/
def upsertRow (db : List Content) (m : Content) : List Content :=
  if db.any (fun r => rowKey r = rowKey m) then
    db.map (fun r => if rowKey r = rowKey m then applyConflictUpdate r m else r)
  else
    db ++ [m]

/-- `Repository.Upsert` (repository source): sets `UpdatedAt` to the
current time, then runs the conflict-handling insert. -/
def Upsert (now : ℚ) (db : List Content) (c : Content) : List Content :=
  upsertRow db { c with updatedAt := now }

/-- Batching done by GORM's `CreateInBatches(models, batchSize)`: the
input split into consecutive chunks of at most `n` rows. -/
def chunkList (n : ℕ) : List Content → List (List Content)
  | [] => []
  | a :: as => (a :: as.take (n - 1)) :: chunkList n (as.drop (n - 1))
termination_by l => l.length
decreasing_by simp [List.length_drop]; omega

/-- `Repository.BulkUpsert` (repository source): empty input returns at
once; otherwise every model's `UpdatedAt` is set to the current time and
the models are written with `CreateInBatches(models, 100)`, one
conflict-handling statement per batch. -/
def BulkUpsert (now : ℚ) (db : List Content) (cs : List Content) : List Content :=
  if cs = [] then db
  else
    let models := cs.map (fun c => { c with updatedAt := now })
    (chunkList 100 models).foldl (fun d batch => batch.foldl upsertRow d) db

/-! ## Migrations (`internal/infra/postgres/migrations`) and ordering -/

/-- Columns of the `CREATE TABLE contents` statement of migration
`001_create_contents`. -/
def contentsTableColumns : List String :=
  ["id", "provider_id", "external_id", "title", "type", "tags",
   "views", "likes", "duration", "reading_time", "reactions", "comments",
   "score", "published_at", "created_at", "updated_at"]

/-- Columns added by migration `002_add_fts_support` (its other
statements create an index, a trigger function, a trigger, and backfill
`search_vector`; no further column is added). -/
def ftsMigrationColumns : List String :=
  ["search_vector"]

/-- All columns of the `contents` table after `Migrations()` (the list
`[createContentsTable(), addFTSSupport()]`) has run. -/
def migratedColumns : List String :=
  contentsTableColumns ++ ftsMigrationColumns

/-- `Repository.applyOrdering` (repository source), as the `ORDER BY`
clause it attaches for the given params (`?` is the bound `Query`
parameter). -/
def applyOrdering (p : SearchParams) : String :=
  let direction := if p.sortOrder = "asc" then "ASC" else "DESC"
  if p.sortBy = "relevance" then
    if p.query ≠ "" then
      "(ts_rank(search_vector, websearch_to_tsquery('english', ?)) * log_score_cached) "
        ++ direction
    else "score " ++ direction
  else if p.sortBy = "score" then "score " ++ direction
  else if p.sortBy = "published_at" then "published_at " ++ direction
  else "score " ++ direction

/-! ## Search service (`internal/app/service/search_service.go`) -/

/-- `buildSearchCacheKey` (`search_service.go:132`):
`fmt.Sprintf("search:%s:%s:%d:%d:%s:%s", ...)`. -/
def buildSearchCacheKey (p : SearchParams) : String :=
  "search:" ++ p.query ++ ":" ++ p.type ++ ":" ++ toString p.page ++ ":"
    ++ toString p.pageSize ++ ":" ++ p.sortBy ++ ":" ++ p.sortOrder

/-- `Cache.buildKey` (`internal/infra/redis/cache.go:151`): the
configured namespace, a colon, and the logical key. -/
def cacheBuildKey (ns key : String) : String :=
  ns ++ ":" ++ key

/-- The full key under which `SearchService.Search` consults and writes
the cache backend for given params. -/
def fullSearchCacheKey (ns : String) (p : SearchParams) : String :=
  cacheBuildKey ns (buildSearchCacheKey p)

/-- `SearchService.Search` (`search_service.go:42`), with the cache and
repository collaborators' outcomes passed in: `getRes` is what
`cache.Get` returns (`Except` error, or `Option` data), `decode` is
`json.Unmarshal` into a `SearchResult`, `repoRes` is what `repo.Search`
returns, and `setRes` is what `cache.Set` returns.  Bytes are modelled
as `List ℕ`. -/
def serviceSearch (hasCache : Bool) (getRes : Except Unit (Option (List ℕ)))
    (decode : List ℕ → Option SearchResult)
    (repoRes : Except String SearchResult)
    (setRes : Except Unit Unit) : Except String SearchResult :=
  let cached : Option SearchResult :=
    if hasCache then
      match getRes with
      | .ok (some data) => decode data
      | _ => none
    else none
  match cached with
  | some r => .ok r
  | none =>
      match repoRes with
      | .error e => .error e
      | .ok result =>
          if hasCache then
            match setRes with
            | .error _ => .ok result
            | .ok _ => .ok result
          else .ok result

/-! ## Sync scheduler (`internal/job/sync_scheduler.go`) -/

/-- `service.SyncResult` (`internal/app/service`, sync service source). -/
structure SyncResult where
  provider : String
  count : ℤ
  duration : ℚ
  error : Option String
  deriving DecidableEq, Repr

/-- Outcome of `locker.Acquire` in `executeSync`: an error, `false`
(held by another instance), or `true`. -/
inductive AcquireOutcome where
  | failure
  | notAcquired
  | acquired
  deriving DecidableEq, Repr

/-- Observable actions of one scheduler tick: the TTL passed to
`Acquire` (the tick always attempts the acquire first), whether
`SyncAll` ran, and whether `Release` was called on the lock key. -/
structure TickActions where
  acquireTtl : ℚ
  ranSync : Bool
  released : Bool
  deriving DecidableEq, Repr

/-- The body of the result loop of `executeSync`
(`sync_scheduler.go:134`): a result with an error bumps `totalErrors`
and sets `hasError`; one without adds its count to `totalSynced`. -/
def analyzeStep (acc : ℤ × ℕ × Bool) (r : SyncResult) : ℤ × ℕ × Bool :=
  match r.error with
  | some _ => (acc.1, acc.2.1 + 1, true)
  | none => (acc.1 + r.count, acc.2.1, acc.2.2)

/-- The result-analysis loop of `executeSync`
(`sync_scheduler.go:130`): folds `totalSynced`, `totalErrors` and
`hasError` over the per-provider results. -/
def analyzeResults (results : List SyncResult) : ℤ × ℕ × Bool :=
  results.foldl analyzeStep (0, 0, false)

/-- `SyncScheduler.executeSync` (`sync_scheduler.go:107`): the tick
calls `Acquire(ctx, lockKey, s.interval)` — the lock TTL is the
scheduler interval; on acquire error or a lock held elsewhere the tick
does nothing more; once acquired, `SyncAll` runs and `Release` is
called exactly when some per-provider result carries an error. -/
def executeSync (interval : ℚ) (acq : AcquireOutcome)
    (results : List SyncResult) : TickActions :=
  match acq with
  | .failure => { acquireTtl := interval, ranSync := false, released := false }
  | .notAcquired => { acquireTtl := interval, ranSync := false, released := false }
  | .acquired =>
      let hasError := (analyzeResults results).2.2
      { acquireTtl := interval, ranSync := true, released := hasError }

/-! ## Concrete fixtures used by closed theorems -/

/-- The spec's scoring scenario 1: a popular recent video published at
the wall-clock instant `t`. -/
def popularVideo (t : ℚ) : Content :=
  { id := "", providerId := "provider_a", externalId := "v1", title := "go concurrency"
    type := "video", tags := [], views := 100000, likes := 10000, duration := "5m30s"
    readingTime := 0, reactions := 0, comments := 0, score := 0
    publishedAt := t, createdAt := t, updatedAt := t }

/-- A `Content` value admitted by the Go type whose `Views` field is
negative. -/
def negativeVideo : Content :=
  { id := "", providerId := "provider_a", externalId := "v2", title := "t"
    type := "video", tags := [], views := -100000, likes := 0, duration := ""
    readingTime := 0, reactions := 0, comments := 0, score := 0
    publishedAt := 0, createdAt := 0, updatedAt := 0 }

/-- A trivial search result used as concrete repository output. -/
def emptyResult : SearchResult :=
  { contents := [], total := 0, page := 1, pageSize := 20, totalPages := 0 }

/-- An existing row of the `contents` table. -/
def w1 : Content :=
  { id := "uuid-1", providerId := "provider_a", externalId := "x1"
    title := "old title", type := "article", tags := ["t"]
    views := 0, likes := 0, duration := "", readingTime := 5
    reactions := 3, comments := 1, score := 10
    publishedAt := 1, createdAt := 2, updatedAt := 3 }

/-- An incoming upsert with the same `(provider_id, external_id)` as
`w1` and fresh data. -/
def w2 : Content :=
  { id := "", providerId := "provider_a", externalId := "x1"
    title := "new title", type := "article", tags := ["t", "u"]
    views := 0, likes := 0, duration := "", readingTime := 6
    reactions := 9, comments := 2, score := 20
    publishedAt := 4, createdAt := 0, updatedAt := 0 }

/-- Params with an out-of-range page size. -/
def zeroPageSizeParams : SearchParams :=
  { query := "", type := "", sortBy := "score", sortOrder := "desc"
    page := 1, pageSize := 0 }

/-- Params asking for relevance ordering with a non-empty query. -/
def relevanceParams : SearchParams :=
  { query := "concurrency", type := "", sortBy := "relevance", sortOrder := "desc"
    page := 1, pageSize := 20 }

/-- First half of a colliding cache-key pair. -/
def collideA : SearchParams :=
  { query := "a", type := "b:c", sortBy := "score", sortOrder := "desc"
    page := 1, pageSize := 20 }

/-- Second half of a colliding cache-key pair: part of the text has
moved from the `Type` filter into the `Query`. -/
def collideB : SearchParams :=
  { query := "a:b", type := "c", sortBy := "score", sortOrder := "desc"
    page := 1, pageSize := 20 }

/-- The cache-key format stated by the spec:
`"search:{query}:{type}:{page}:{page_size}:{sort_by}:{sort_order}"`
prefixed by the configured namespace. -/
def specSearchCacheKey (ns : String) (p : SearchParams) : String :=
  ns ++ ":" ++ ("search:" ++ p.query ++ ":" ++ p.type ++ ":" ++ toString p.page
    ++ ":" ++ toString p.pageSize ++ ":" ++ p.sortBy ++ ":" ++ p.sortOrder)

/-! ## Helper lemmas -/

theorem validate_page_eq (p : SearchParams) :
    p.validate.page = if p.page < 1 then 1 else p.page := by
  unfold SearchParams.validate
  dsimp only
  split_ifs <;> rfl

theorem validate_pageSize_eq (p : SearchParams) :
    p.validate.pageSize =
      if p.pageSize < 1 then 20 else if p.pageSize > 100 then 100 else p.pageSize := by
  unfold SearchParams.validate
  dsimp only
  split_ifs <;> simp_all

theorem validate_query_eq (p : SearchParams) : p.validate.query = p.query := by
  unfold SearchParams.validate
  dsimp only
  split_ifs <;> rfl

theorem validate_type_eq (p : SearchParams) : p.validate.type = p.type := by
  unfold SearchParams.validate
  dsimp only
  split_ifs <;> rfl

theorem validate_page_pos (p : SearchParams) : 1 ≤ p.validate.page := by
  rw [validate_page_eq]
  split_ifs <;> omega

theorem validate_pageSize_pos (p : SearchParams) : 1 ≤ p.validate.pageSize := by
  rw [validate_pageSize_eq]
  split_ifs <;> omega

theorem validate_pageSize_le (p : SearchParams) : p.validate.pageSize ≤ 100 := by
  rw [validate_pageSize_eq]
  split_ifs <;> omega

theorem applyConflictUpdate_eq (old new : Content) :
    applyConflictUpdate old new =
      { old with
        title := new.title, type := new.type, tags := new.tags,
        views := new.views, likes := new.likes, duration := new.duration,
        readingTime := new.readingTime, reactions := new.reactions,
        comments := new.comments, score := new.score,
        publishedAt := new.publishedAt, updatedAt := new.updatedAt } := by
  simp [applyConflictUpdate, assignmentColumns, assignColumn]

theorem chunkList_length_le_aux (n : ℕ) (hn : 1 ≤ n) :
    ∀ (k : ℕ) (ms : List Content), ms.length ≤ k →
      ∀ b ∈ chunkList n ms, b.length ≤ n := by
  intro k
  induction k with
  | zero =>
      intro ms hlen b hb
      have hms : ms = [] := List.length_eq_zero.mp (Nat.le_zero.mp hlen)
      subst hms
      simp [chunkList] at hb
  | succ k ih =>
      intro ms hlen b hb
      cases ms with
      | nil => simp [chunkList] at hb
      | cons a as =>
          rw [chunkList] at hb
          rcases List.mem_cons.mp hb with hb | hb
          · subst hb
            simp only [List.length_cons, List.length_take]
            have := Nat.min_le_left (n - 1) as.length
            omega
          · refine ih (as.drop (n - 1)) ?_ b hb
            simp only [List.length_drop]
            simp only [List.length_cons] at hlen
            omega

theorem mem_chunkList_length_le (ms b : List Content)
    (hb : b ∈ chunkList 100 ms) : b.length ≤ 100 :=
  chunkList_length_le_aux 100 (by norm_num) ms.length ms le_rfl b hb

theorem upsert_collision (now : ℚ) (db : List Content) (c old : Content)
    (hold : old ∈ db) (hkey : rowKey old = rowKey c) :
    (Upsert now db c).length = db.length ∧
    ∃ r ∈ Upsert now db c,
      r.id = old.id ∧ r.createdAt = old.createdAt ∧
      r.providerId = old.providerId ∧ r.externalId = old.externalId ∧
      r.title = c.title ∧ r.type = c.type ∧ r.tags = c.tags ∧
      r.views = c.views ∧ r.likes = c.likes ∧ r.duration = c.duration ∧
      r.readingTime = c.readingTime ∧ r.reactions = c.reactions ∧
      r.comments = c.comments ∧ r.score = c.score ∧
      r.publishedAt = c.publishedAt ∧ r.updatedAt = now := by
  have hkey' : rowKey old = rowKey { c with updatedAt := now } := hkey
  have hany : (db.any fun r => rowKey r = rowKey { c with updatedAt := now }) = true :=
    List.any_eq_true.mpr ⟨old, hold, by simp [hkey']⟩
  constructor
  · simp [Upsert, upsertRow, hany]
  · refine ⟨applyConflictUpdate old { c with updatedAt := now }, ?_, ?_⟩
    · simp only [Upsert, upsertRow, hany, if_true]
      exact List.mem_map.mpr ⟨old, hold, by rw [if_pos hkey']⟩
    · simp [applyConflictUpdate_eq]

theorem bulkUpsert_singleton (now : ℚ) (db : List Content) (c : Content) :
    BulkUpsert now db [c] = Upsert now db c := by
  simp [BulkUpsert, chunkList, Upsert]

theorem calculateBaseScore_nonneg (c : Content)
    (hv : 0 ≤ c.views) (hl : 0 ≤ c.likes)
    (hr : 0 ≤ c.readingTime) (hx : 0 ≤ c.reactions) :
    0 ≤ calculateBaseScore c := by
  have hv' : (0:ℚ) ≤ (c.views : ℚ) := by exact_mod_cast hv
  have hl' : (0:ℚ) ≤ (c.likes : ℚ) := by exact_mod_cast hl
  have hr' : (0:ℚ) ≤ (c.readingTime : ℚ) := by exact_mod_cast hr
  have hx' : (0:ℚ) ≤ (c.reactions : ℚ) := by exact_mod_cast hx
  unfold calculateBaseScore
  split_ifs
  · exact add_nonneg (div_nonneg hv' (by norm_num)) (div_nonneg hl' (by norm_num))
  · exact add_nonneg hr' (div_nonneg hx' (by norm_num))
  · exact le_refl 0

theorem contentTypeCoefficient_nonneg (t : String) :
    0 ≤ contentTypeCoefficient t := by
  unfold contentTypeCoefficient
  split_ifs <;> norm_num

theorem calculateRecencyScore_nonneg (c : Content) (now : ℚ) :
    0 ≤ calculateRecencyScore c now := by
  unfold calculateRecencyScore
  dsimp only
  split_ifs <;> norm_num

theorem calculateEngagementScore_nonneg (c : Content)
    (hv : 0 ≤ c.views) (hl : 0 ≤ c.likes)
    (hr : 0 ≤ c.readingTime) (hx : 0 ≤ c.reactions) :
    0 ≤ calculateEngagementScore c := by
  have hv' : (0:ℚ) ≤ (c.views : ℚ) := by exact_mod_cast hv
  have hl' : (0:ℚ) ≤ (c.likes : ℚ) := by exact_mod_cast hl
  have hr' : (0:ℚ) ≤ (c.readingTime : ℚ) := by exact_mod_cast hr
  have hx' : (0:ℚ) ≤ (c.reactions : ℚ) := by exact_mod_cast hx
  unfold calculateEngagementScore
  split_ifs
  all_goals
    first
      | exact le_refl 0
      | exact mul_nonneg (div_nonneg hl' hv') (by norm_num)
      | exact mul_nonneg (div_nonneg hx' hr') (by norm_num)

theorem roundTo2Decimals_nonneg (v : ℚ) (h : 0 ≤ v) :
    0 ≤ roundTo2Decimals v := by
  unfold roundTo2Decimals ratTrunc
  have h100 : (0:ℚ) ≤ v * 100 := by positivity
  have hpos : ¬ (v * 100 + 1/2 < 0) := by linarith
  rw [if_neg hpos]
  have hfl : (0:ℤ) ≤ ⌊v * 100 + 1/2⌋ := Int.le_floor.mpr (by push_cast; linarith)
  have : (0:ℚ) ≤ (⌊v * 100 + 1/2⌋ : ℚ) := by exact_mod_cast hfl
  linarith

theorem nat_ceilDiv_eq (n s : ℕ) (hs : 1 ≤ s) :
    ((n / s : ℕ) : ℤ) + (if 0 < n % s then 1 else 0) = ⌈(n : ℚ) / (s : ℚ)⌉ := by
  have hsQ : (0:ℚ) < (s : ℚ) := by exact_mod_cast hs
  have hdm : s * (n / s) + n % s = n := Nat.div_add_mod n s
  set q := n / s with hq
  set r := n % s with hr0
  have hdmQ : (s : ℚ) * (q : ℚ) + (r : ℚ) = (n : ℚ) := by exact_mod_cast hdm
  by_cases hr : r = 0
  · rw [if_neg (by omega)]
    have hnq : (n : ℚ) / (s : ℚ) = (q : ℚ) := by
      rw [div_eq_iff (ne_of_gt hsQ)]
      rw [hr] at hdmQ
      push_cast at hdmQ ⊢
      linarith
    rw [hnq, Int.ceil_natCast]
    simp
  · have hr' : 0 < r := Nat.pos_of_ne_zero hr
    have hrs : r < s := hr0 ▸ Nat.mod_lt n (by omega)
    have hrQ : (0:ℚ) < (r : ℚ) := by exact_mod_cast hr'
    have hrsQ : (r : ℚ) < (s : ℚ) := by exact_mod_cast hrs
    rw [if_pos hr']
    symm
    rw [Int.ceil_eq_iff]
    constructor
    · push_cast
      have h1 : ((q:ℚ)) + 1 - 1 = (q:ℚ) := by ring
      rw [h1, lt_div_iff₀ hsQ]
      nlinarith [hdmQ, hrQ]
    · push_cast
      rw [div_le_iff₀ hsQ]
      nlinarith [hdmQ, hrsQ]

theorem NewSearchResult_totalPages_ceil (contents : List Content) (n : ℕ)
    (p : SearchParams) (hS : 1 ≤ p.pageSize) :
    (NewSearchResult contents (n : ℤ) p).totalPages
      = ⌈(n : ℚ) / ((p.pageSize : ℤ) : ℚ)⌉ := by
  have hS0 : (0:ℤ) ≤ p.pageSize := by omega
  set s := p.pageSize.toNat with hs
  have hSs : (s : ℤ) = p.pageSize := Int.toNat_of_nonneg hS0
  have hs1 : 1 ≤ s := by omega
  unfold NewSearchResult
  dsimp only
  rw [← hSs, ← Int.ofNat_tdiv, ← Int.ofNat_tmod]
  have key := nat_ceilDiv_eq n s hs1
  rw [Int.cast_natCast]
  by_cases hc : 0 < n % s
  · rw [if_pos hc] at key
    rw [if_pos (by exact_mod_cast hc : ((n % s : ℕ) : ℤ) > 0)]
    exact key
  · rw [if_neg hc] at key
    rw [if_neg (by exact_mod_cast hc : ¬ ((n % s : ℕ) : ℤ) > 0)]
    simpa using key

theorem analyzeStep_foldl_flag (rs : List SyncResult) :
    ∀ init : ℤ × ℕ × Bool,
      (rs.foldl analyzeStep init).2.2
        = (init.2.2 || rs.any (fun r => r.error.isSome)) := by
  induction rs with
  | nil => intro init; simp
  | cons r rs ih =>
      intro init
      cases h : r.error <;>
        simp [List.foldl_cons, List.any_cons, analyzeStep, h, ih]

theorem analyzeResults_hasError (rs : List SyncResult) :
    (analyzeResults rs).2.2 = rs.any (fun r => r.error.isSome) := by
  simpa using analyzeStep_foldl_flag rs (0, 0, false)

/-! ## Claim theorems -/

/-- C1 (the failing input evaluated): for a relevance-sorted search with
a non-empty query, the `ORDER BY` clause the repository emits is the
product `ts_rank(search_vector, websearch_to_tsquery('english', ?)) *
log_score_cached`, yet `log_score_cached` is not among the columns that
the migrations (`001_create_contents` and `002_add_fts_support`) give
the `contents` table: the spec and the code's own architecture notes
promise a stored generated column `log10(score + 10)` that no migration
creates, so the emitted query references a non-existent column. -/
theorem relevance_ordering_references_missing_column :
    applyOrdering relevanceParams =
      "(ts_rank(search_vector, websearch_to_tsquery('english', ?)) * log_score_cached) DESC"
    ∧ "log_score_cached" ∉ migratedColumns := by
  constructor
  · rfl
  · decide

/-- C2: `CalculateScore` is `round2(base · type_coeff + recency +
engagement)` — the coefficient multiplies only the base term — and on
the popular recent video `{type: video, views: 100000, likes: 10000,
published_at: now}` evaluated at wall-clock `now` it returns exactly
`306.00`. -/
theorem calculateScore_formula_and_popular_video :
    (∀ (c : Content) (now : ℚ),
      CalculateScore (some c) now =
        roundTo2Decimals
          (calculateBaseScore c * contentTypeCoefficient c.type
            + calculateRecencyScore c now
            + calculateEngagementScore c)) ∧
    (∀ t : ℚ, CalculateScore (some (popularVideo t)) t = 306) := by
  constructor
  · intro c now
    rfl
  · intro t
    simp [CalculateScore, popularVideo, calculateBaseScore, contentTypeCoefficient,
      calculateRecencyScore, calculateEngagementScore, daysSincePublished,
      roundTo2Decimals, ratTrunc]
    norm_num

/-- C5 (counterexample): the claim says out-of-range values are
corrected to the defaults, but `PageSize = 0` is corrected to `20`
while `DefaultSearchParams` carries page size `5`. -/
theorem validate_pageSize_not_default :
    zeroPageSizeParams.pageSize < 1
    ∧ zeroPageSizeParams.validate.pageSize = 20
    ∧ DefaultSearchParams.pageSize = 5
    ∧ zeroPageSizeParams.validate.pageSize ≠ DefaultSearchParams.pageSize := by
  refine ⟨by decide, ?_, rfl, ?_⟩ <;> decide

/-- C5 (amended): after `Validate`, `Page ≥ 1` and `1 ≤ PageSize ≤ 100`;
out-of-range values are corrected in place to fixed fallbacks (`Page`
to 1, `PageSize` to 20 when below 1 and to 100 when above 100) rather
than rejected, and in-range fields are left unchanged. -/
theorem validate_clamps (p : SearchParams) :
    1 ≤ p.validate.page
    ∧ 1 ≤ p.validate.pageSize
    ∧ p.validate.pageSize ≤ 100
    ∧ p.validate.page = (if p.page < 1 then 1 else p.page)
    ∧ p.validate.pageSize =
        (if p.pageSize < 1 then 20 else if p.pageSize > 100 then 100 else p.pageSize)
    ∧ p.validate.query = p.query
    ∧ p.validate.type = p.type :=
  ⟨validate_page_pos p, validate_pageSize_pos p, validate_pageSize_le p,
    validate_page_eq p, validate_pageSize_eq p, validate_query_eq p, validate_type_eq p⟩

/-- C7: the full key `SearchService.Search` consults and writes — the
service's `buildSearchCacheKey` run through the cache's namespace
prefixing `buildKey` — is exactly the spec's
`"search:{query}:{type}:{page}:{page_size}:{sort_by}:{sort_order}"`
prefixed by the configured namespace; being a pure function of the
params alone it is deterministic and independent of the wall clock. -/
theorem fullSearchCacheKey_matches_spec (ns : String) (p : SearchParams) :
    fullSearchCacheKey ns p = specSearchCacheKey ns p := by
  simp [fullSearchCacheKey, cacheBuildKey, buildSearchCacheKey, specSearchCacheKey,
    String.append_assoc]

/-- C10: the cache key derivation is not injective: moving text across
the `:` separator between `Query` and `Type` yields two distinct
`SearchParams` with the same cache key. -/
theorem buildSearchCacheKey_not_injective :
    buildSearchCacheKey collideA = buildSearchCacheKey collideB
    ∧ collideA ≠ collideB := by
  constructor
  · decide
  · decide

/-- C6: every tick passes the scheduler interval as the lock TTL; on a
tick that acquires the distributed lock, `Release` is called exactly
when some per-provider result of `SyncAll` carries a non-nil error —
on all-success the lock is left to expire at its TTL; the tick never
releases when the lock was not acquired. -/
theorem executeSync_release_policy (ttl : ℚ) (rs : List SyncResult) :
    (executeSync ttl .acquired rs).acquireTtl = ttl
    ∧ ((executeSync ttl .acquired rs).released = false ↔ ∀ r ∈ rs, r.error = none)
    ∧ ((executeSync ttl .acquired rs).released = true ↔ ∃ r ∈ rs, r.error ≠ none)
    ∧ (executeSync ttl .acquired rs).ranSync = true
    ∧ (executeSync ttl .failure rs).released = false
    ∧ (executeSync ttl .notAcquired rs).released = false := by
  refine ⟨rfl, ?_, ?_, rfl, rfl, rfl⟩ <;>
    simp [executeSync, analyzeResults_hasError, Option.isSome_iff_ne_none,
      List.any_eq_true]

/-- C3: when the repository succeeds, a cache `Get` error, a
deserialisation failure of the cached bytes, or a cache `Set` error
(after a cache miss) never reaches the caller: `SearchService.Search`
returns exactly the repository's result with a nil error, for any `Set`
outcome. -/
theorem serviceSearch_cache_fail_open
    (decode : List ℕ → Option SearchResult) (r : SearchResult)
    (setRes : Except Unit Unit) :
    (serviceSearch true (.error ()) decode (.ok r) setRes = .ok r)
    ∧ (∀ d, decode d = none →
        serviceSearch true (.ok (some d)) decode (.ok r) setRes = .ok r)
    ∧ (serviceSearch true (.ok none) decode (.ok r) (.error ()) = .ok r) := by
  refine ⟨?_, ?_, rfl⟩
  · cases setRes <;> rfl
  · intro d hd
    cases setRes <;> simp [serviceSearch, hd]

/-- Witness for C3 at a concrete decoder, result and failing `Set`. -/
theorem serviceSearch_cache_fail_open_witness :
    serviceSearch true (.ok (some [0])) (fun _ => none) (.ok emptyResult) (.error ())
      = .ok emptyResult :=
  (serviceSearch_cache_fail_open (fun _ => none) emptyResult (.error ())).2.1 [0] rfl

/-- C8 (counterexample): the `Content` type admits negative metric
values (Go `int`), and on a video with `Views = -100000` the score is
`-144.99 < 0`. -/
theorem calculateScore_negative_views :
    CalculateScore (some negativeVideo) 0 < 0 := by
  simp [CalculateScore, negativeVideo, calculateBaseScore, contentTypeCoefficient,
    calculateRecencyScore, calculateEngagementScore, daysSincePublished,
    roundTo2Decimals, ratTrunc]
  norm_num
  have hceil : ⌈(-(28999 / 2) : ℚ)⌉ = (-14499 : ℤ) := by
    rw [Int.ceil_eq_iff]
    norm_num
  rw [hceil]
  norm_num

/-- C8 (amended): for every `Content` whose metric fields are
non-negative — the range the data model admits — and every wall-clock
time, `CalculateScore(c) ≥ 0`; and `CalculateScore(nil) = 0`. -/
theorem calculateScore_nonneg :
    (∀ (c : Content) (now : ℚ),
      0 ≤ c.views → 0 ≤ c.likes → 0 ≤ c.readingTime → 0 ≤ c.reactions →
      0 ≤ CalculateScore (some c) now)
    ∧ (∀ now : ℚ, CalculateScore none now = 0) := by
  constructor
  · intro c now hv hl hr hx
    have hbase := calculateBaseScore_nonneg c hv hl hr hx
    have hcoeff := contentTypeCoefficient_nonneg c.type
    have hrec := calculateRecencyScore_nonneg c now
    have heng := calculateEngagementScore_nonneg c hv hl hr hx
    exact roundTo2Decimals_nonneg _
      (add_nonneg (add_nonneg (mul_nonneg hbase hcoeff) hrec) heng)
  · intro now
    rfl

/-- Witness for the amended C8 at the popular-video fixture. -/
theorem calculateScore_nonneg_witness :
    0 ≤ CalculateScore (some (popularVideo 0)) 0 :=
  calculateScore_nonneg.1 (popularVideo 0) 0
    (by norm_num [popularVideo]) (by norm_num [popularVideo])
    (by norm_num [popularVideo]) (by norm_num [popularVideo])

/-- C4: an upsert whose `(provider_id, external_id)` collides with an
existing row updates that row in place, under `Upsert` and under
`BulkUpsert` alike — the table keeps its size, and the updated row
keeps the old `id` and `created_at` while taking the incoming `title`,
`type`, `tags`, metrics, `score` and `published_at` and the fresh
`updated_at`; `BulkUpsert` on an empty list leaves the table untouched,
and its batches carry at most 100 rows each. -/
theorem upsert_preserves_identity :
    (∀ (now : ℚ) (db : List Content) (c old : Content),
      old ∈ db → rowKey old = rowKey c →
      (Upsert now db c).length = db.length ∧
      ∃ r ∈ Upsert now db c,
        r.id = old.id ∧ r.createdAt = old.createdAt ∧
        r.providerId = old.providerId ∧ r.externalId = old.externalId ∧
        r.title = c.title ∧ r.type = c.type ∧ r.tags = c.tags ∧
        r.views = c.views ∧ r.likes = c.likes ∧ r.duration = c.duration ∧
        r.readingTime = c.readingTime ∧ r.reactions = c.reactions ∧
        r.comments = c.comments ∧ r.score = c.score ∧
        r.publishedAt = c.publishedAt ∧ r.updatedAt = now)
    ∧ (∀ (now : ℚ) (db : List Content) (c old : Content),
      old ∈ db → rowKey old = rowKey c →
      (BulkUpsert now db [c]).length = db.length ∧
      ∃ r ∈ BulkUpsert now db [c],
        r.id = old.id ∧ r.createdAt = old.createdAt ∧
        r.providerId = old.providerId ∧ r.externalId = old.externalId ∧
        r.title = c.title ∧ r.type = c.type ∧ r.tags = c.tags ∧
        r.views = c.views ∧ r.likes = c.likes ∧ r.duration = c.duration ∧
        r.readingTime = c.readingTime ∧ r.reactions = c.reactions ∧
        r.comments = c.comments ∧ r.score = c.score ∧
        r.publishedAt = c.publishedAt ∧ r.updatedAt = now)
    ∧ (∀ (now : ℚ) (db : List Content), BulkUpsert now db [] = db)
    ∧ (∀ (ms b : List Content), b ∈ chunkList 100 ms → b.length ≤ 100) := by
  refine ⟨?_, ?_, ?_, ?_⟩
  · exact fun now db c old hold hkey => upsert_collision now db c old hold hkey
  · intro now db c old hold hkey
    rw [bulkUpsert_singleton]
    exact upsert_collision now db c old hold hkey
  · intro now db
    rfl
  · exact fun ms b => mem_chunkList_length_le ms b

/-- C9: for every FTS engine, every `ORDER BY` realisation, every table
state and every `SearchParams`, the result of the repository's `Search`
holds at most `page_size` rows (the clamped page size the result also
reports) and `total_pages = ⌈total / page_size⌉`. -/
theorem repoSearch_pagination
    (ftsMatch : String → Content → Bool)
    (order : List Content → List Content)
    (db : List Content) (params : SearchParams) :
    ((repoSearch ftsMatch order db params).contents.length : ℤ)
        ≤ (repoSearch ftsMatch order db params).pageSize
    ∧ (repoSearch ftsMatch order db params).totalPages
        = ⌈((repoSearch ftsMatch order db params).total : ℚ)
            / ((repoSearch ftsMatch order db params).pageSize : ℚ)⌉ := by
  have hS : 1 ≤ params.validate.pageSize := validate_pageSize_pos params
  have hS0 : (0:ℤ) ≤ params.validate.pageSize := by omega
  have hrepo : repoSearch ftsMatch order db params =
      NewSearchResult
        (((order (db.filter (rowMatches ftsMatch params.validate))).drop
            params.validate.offset.toNat).take params.validate.pageSize.toNat)
        (((db.filter (rowMatches ftsMatch params.validate)).length : ℕ) : ℤ)
        params.validate := rfl
  have hcontents : (repoSearch ftsMatch order db params).contents =
      ((order (db.filter (rowMatches ftsMatch params.validate))).drop
          params.validate.offset.toNat).take params.validate.pageSize.toNat := rfl
  have hps : (repoSearch ftsMatch order db params).pageSize
      = params.validate.pageSize := rfl
  have htot : (repoSearch ftsMatch order db params).total =
      (((db.filter (rowMatches ftsMatch params.validate)).length : ℕ) : ℤ) := rfl
  constructor
  · rw [hcontents, hps]
    have hlen : (((order (db.filter (rowMatches ftsMatch params.validate))).drop
        params.validate.offset.toNat).take params.validate.pageSize.toNat).length
          ≤ params.validate.pageSize.toNat := List.length_take_le _ _
    calc (((((order (db.filter (rowMatches ftsMatch params.validate))).drop
            params.validate.offset.toNat).take params.validate.pageSize.toNat).length : ℕ) : ℤ)
        ≤ ((params.validate.pageSize.toNat : ℕ) : ℤ) := by exact_mod_cast hlen
      _ = params.validate.pageSize := Int.toNat_of_nonneg hS0
  · rw [htot, hps, hrepo]
    exact NewSearchResult_totalPages_ceil _ _ _ hS

/-- Witness for C4 at a concrete colliding pair of rows, through both
`Upsert` and `BulkUpsert`. -/
theorem upsert_preserves_identity_witness :
    ((Upsert 7 [w1] w2).length = ([w1] : List Content).length ∧
    ∃ r ∈ Upsert 7 [w1] w2,
      r.id = w1.id ∧ r.createdAt = w1.createdAt ∧
      r.providerId = w1.providerId ∧ r.externalId = w1.externalId ∧
      r.title = w2.title ∧ r.type = w2.type ∧ r.tags = w2.tags ∧
      r.views = w2.views ∧ r.likes = w2.likes ∧ r.duration = w2.duration ∧
      r.readingTime = w2.readingTime ∧ r.reactions = w2.reactions ∧
      r.comments = w2.comments ∧ r.score = w2.score ∧
      r.publishedAt = w2.publishedAt ∧ r.updatedAt = 7) ∧
    ((BulkUpsert 7 [w1] [w2]).length = ([w1] : List Content).length ∧
    ∃ r ∈ BulkUpsert 7 [w1] [w2],
      r.id = w1.id ∧ r.createdAt = w1.createdAt ∧
      r.providerId = w1.providerId ∧ r.externalId = w1.externalId ∧
      r.title = w2.title ∧ r.type = w2.type ∧ r.tags = w2.tags ∧
      r.views = w2.views ∧ r.likes = w2.likes ∧ r.duration = w2.duration ∧
      r.readingTime = w2.readingTime ∧ r.reactions = w2.reactions ∧
      r.comments = w2.comments ∧ r.score = w2.score ∧
      r.publishedAt = w2.publishedAt ∧ r.updatedAt = 7) :=
  ⟨upsert_preserves_identity.1 7 [w1] w2 w1 (List.mem_singleton.mpr rfl) rfl,
   upsert_preserves_identity.2.1 7 [w1] w2 w1 (List.mem_singleton.mpr rfl) rfl⟩

end SearchEngine
